import Mathlib

/-!
# Verification of the todo-api task service (src/main.py)

Shallow embedding of the task store and its HTTP operations. Tasks live in a
SQLite table; we model the table as a list of rows in rowid (insertion) order
together with the AUTOINCREMENT counter. Each endpoint of `main.py` becomes a
pure Lean function over that state; fallible endpoints return `Except`.
Dates are the TEXT strings SQLite stores; SQLite compares TEXT bytewise, which
for the ASCII strings involved coincides with Lean's `String` order.
-/

namespace TodoApi

/-- A row of the `tasks` table (`id, title, done, due_date, category, priority`).
`created_at` is never read by the endpoints the claims concern, so it is not
modelled. NULLable TEXT columns are `Option String`. -/
structure Task where
  id : Nat
  title : String
  done : Bool
  due_date : Option String
  category : Option String
  priority : Option String
deriving Repr, DecidableEq

/-- The parsed PUT/POST body (Pydantic model `TaskCreate`): `title` is required,
`done` defaults to `false`, the other fields default to `None` when omitted. -/
structure TaskCreate where
  title : String
  done : Bool := false
  due_date : Option String := none
  category : Option String := none
  priority : Option String := none
deriving Repr, DecidableEq

/-- The database state: the `tasks` table in rowid order plus the
AUTOINCREMENT counter (next id SQLite will hand out). -/
structure DB where
  tasks : List Task
  nextId : Nat
deriving Repr, DecidableEq

/-- State after `init_db` on a fresh file: empty table, AUTOINCREMENT at 1. -/
def DB.init : DB := ⟨[], 1⟩

/-- Python truthiness of an `Optional[str]`: `None` and `""` are falsy. -/
def truthy : Option String → Bool
  | none => false
  | some s => s ≠ ""

/-- An HTTP error as raised by `HTTPException(status_code, detail)`. -/
structure HTTPError where
  status : Nat
  detail : String
deriving Repr, DecidableEq

/-! ## Date validation: `datetime.strptime(s, "%Y-%m-%d")`

CPython compiles the format to the regex
`(?P<Y>\d\d\d\d)\-(?P<m>1[0-2]|0[1-9]|[1-9])\-(?P<d>3[01]|[12]\d|0[1-9]|[1-9]| [1-9])`,
requires the whole input to be consumed, and then constructs a `date`, which
additionally checks `1 <= year` and that the day exists in the month.
Note the month and day admit unpadded (and for the day, space-padded) forms. -/

def digitVal (c : Char) : Nat := c.toNat - '0'.toNat

/-- Candidate matches for the `%m` regex `1[0-2]|0[1-9]|[1-9]`, each with the
unconsumed remainder, in the order the regex alternation tries them. -/
def monthCands : List Char → List (Nat × List Char)
  | c1 :: c2 :: rest =>
    (if c1 = '1' ∧ ('0' ≤ c2 ∧ c2 ≤ '2') then [(10 + digitVal c2, rest)] else []) ++
    (if c1 = '0' ∧ ('1' ≤ c2 ∧ c2 ≤ '9') then [(digitVal c2, rest)] else []) ++
    (if '1' ≤ c1 ∧ c1 ≤ '9' then [(digitVal c1, c2 :: rest)] else [])
  | [c1] => if '1' ≤ c1 ∧ c1 ≤ '9' then [(digitVal c1, [])] else []
  | [] => []

/-- Candidate matches for the `%d` regex `3[01]|[12]\d|0[1-9]|[1-9]| [1-9]`. -/
def dayCands : List Char → List (Nat × List Char)
  | c1 :: c2 :: rest =>
    (if c1 = '3' ∧ (c2 = '0' ∨ c2 = '1') then [(30 + digitVal c2, rest)] else []) ++
    (if (c1 = '1' ∨ c1 = '2') ∧ c2.isDigit then [(10 * digitVal c1 + digitVal c2, rest)] else []) ++
    (if c1 = '0' ∧ ('1' ≤ c2 ∧ c2 ≤ '9') then [(digitVal c2, rest)] else []) ++
    (if '1' ≤ c1 ∧ c1 ≤ '9' then [(digitVal c1, c2 :: rest)] else []) ++
    (if c1 = ' ' ∧ ('1' ≤ c2 ∧ c2 ≤ '9') then [(digitVal c2, rest)] else [])
  | [c1] => if '1' ≤ c1 ∧ c1 ≤ '9' then [(digitVal c1, [])] else []
  | [] => []

/-- Regex phase of `strptime(s, "%Y-%m-%d")`: four digits, `-`, month, `-`,
day, end of input (with backtracking over the alternatives). -/
def strptimeYmd (s : String) : Option (Nat × Nat × Nat) :=
  match s.toList with
  | y1 :: y2 :: y3 :: y4 :: '-' :: rest =>
    if y1.isDigit ∧ y2.isDigit ∧ y3.isDigit ∧ y4.isDigit then
      let y := 1000 * digitVal y1 + 100 * digitVal y2 + 10 * digitVal y3 + digitVal y4
      (monthCands rest).findSome? fun mc =>
        match mc.2 with
        | '-' :: rest2 =>
          (dayCands rest2).findSome? fun dc =>
            if dc.2 = [] then some (y, mc.1, dc.1) else none
        | _ => none
    else none
  | _ => none

def isLeap (y : Nat) : Bool := (y % 4 = 0 ∧ y % 100 ≠ 0) ∨ y % 400 = 0

def daysInMonth (y m : Nat) : Nat :=
  if m = 2 then (if isLeap y then 29 else 28)
  else if m = 4 ∨ m = 6 ∨ m = 9 ∨ m = 11 then 30
  else 31

/-- `datetime.strptime(s, "%Y-%m-%d")` succeeds: the regex matches and the
`date` constructor accepts the numbers (year ≥ 1, day exists in the month;
the regex already forces 1 ≤ month ≤ 12 and day ≥ 1). -/
def validYmd (s : String) : Bool :=
  match strptimeYmd s with
  | some (y, m, d) => 1 ≤ y ∧ d ≤ daysInMonth y m
  | none => false

/-- Follows the spec's words, for comparison with the code's check: a
syntactically valid calendar date written in (zero-padded) `YYYY-MM-DD` form. -/
def isYYYYMMDD_spec (s : String) : Bool :=
  match s.toList with
  | [y1, y2, y3, y4, '-', m1, m2, '-', d1, d2] =>
    if y1.isDigit ∧ y2.isDigit ∧ y3.isDigit ∧ y4.isDigit ∧
        m1.isDigit ∧ m2.isDigit ∧ d1.isDigit ∧ d2.isDigit then
      let y := 1000 * digitVal y1 + 100 * digitVal y2 + 10 * digitVal y3 + digitVal y4
      let m := 10 * digitVal m1 + digitVal m2
      let d := 10 * digitVal d1 + digitVal d2
      1 ≤ y ∧ 1 ≤ m ∧ m ≤ 12 ∧ 1 ≤ d ∧ d ≤ daysInMonth y m
    else false
  | _ => false

/-! ## The request date: `date.today()` and `timedelta` arithmetic -/

/-- The calendar date at which a request is processed (`date.today()`). -/
structure Ymd where
  year : Nat
  month : Nat
  day : Nat
deriving Repr, DecidableEq

def pad2 (n : Nat) : String := if n < 10 then "0" ++ toString n else toString n

def pad4 (n : Nat) : String :=
  if n < 10 then "000" ++ toString n
  else if n < 100 then "00" ++ toString n
  else if n < 1000 then "0" ++ toString n
  else toString n

/-- `str(date)` = ISO format `%04d-%02d-%02d`. -/
def fmtYmd (d : Ymd) : String := pad4 d.year ++ "-" ++ pad2 d.month ++ "-" ++ pad2 d.day

def nextDay (d : Ymd) : Ymd :=
  if d.day < daysInMonth d.year d.month then ⟨d.year, d.month, d.day + 1⟩
  else if d.month < 12 then ⟨d.year, d.month + 1, 1⟩
  else ⟨d.year + 1, 1, 1⟩

/-- `date + timedelta(days = n)`. -/
def addDays (d : Ymd) (n : Nat) : Ymd := Nat.iterate nextDay n d

/-! ## POST /tasks (`create_task`) -/

def validPriorities : List String := ["high", "medium", "low"]

/-- `if task.due_date: try strptime ... except ValueError: raise 400` — the
date guard fires exactly on a truthy (non-None, nonempty) string that
`strptime "%Y-%m-%d"` rejects. -/
def dueDateRejected (d : Option String) : Prop :=
  truthy d = true ∧ validYmd (d.getD "") = false

instance (d : Option String) : Decidable (dueDateRejected d) := by
  unfold dueDateRejected; infer_instance

/-- `if task.priority and task.priority not in valid_priorities: raise 400` —
fires exactly on a truthy priority outside the enumeration. -/
def priorityRejected (p : Option String) : Prop :=
  truthy p = true ∧ p.getD "" ∉ validPriorities

instance (p : Option String) : Decidable (priorityRejected p) := by
  unfold priorityRejected; infer_instance

/-- `create_task`: validate `due_date` (only when truthy) against
`strptime "%Y-%m-%d"`, validate `priority` (only when truthy) against the
enumeration, default a falsy priority to `"medium"`, then INSERT. The new row
gets the AUTOINCREMENT id and is appended in rowid order; the response echoes
the row. -/
def create_task (db : DB) (task : TaskCreate) : Except HTTPError (DB × Task) :=
  if dueDateRejected task.due_date then
    .error ⟨400, "Invalid date format. Use YYYY-MM-DD"⟩
  else if priorityRejected task.priority then
    .error ⟨400, "Invalid priority. Use: high, medium, low"⟩
  else
    let pr : Option String := if truthy task.priority then task.priority else some "medium"
    let t : Task := ⟨db.nextId, task.title, task.done, task.due_date, task.category, pr⟩
    .ok (⟨db.tasks ++ [t], db.nextId + 1⟩, t)

/-! ## PUT /tasks/{id} (`update_task`) -/

/-- `existing[0] or "medium"`: the stored priority when truthy, else `"medium"`. -/
def priorityFallback : Option String → String
  | some p => if p = "" then "medium" else p
  | none => "medium"

/-- `update_task`: validate `due_date` and `priority` exactly as `create_task`
does; when the body's priority is `None` (not merely falsy), fetch the stored
row's priority and fall back through `or "medium"`; 404 when no row has the
id; otherwise UPDATE every column of the row in place and echo the result. -/
def update_task (db : DB) (task_id : Nat) (task : TaskCreate) :
    Except HTTPError (DB × Task) :=
  if dueDateRejected task.due_date then
    .error ⟨400, "Invalid date format. Use YYYY-MM-DD"⟩
  else if priorityRejected task.priority then
    .error ⟨400, "Invalid priority. Use: high, medium, low"⟩
  else
    let pr : Option String :=
      match task.priority with
      | none =>
        match db.tasks.find? (fun t => t.id = task_id) with
        | some old => some (priorityFallback old.priority)
        | none => some "medium"
      | some p => some p
    if db.tasks.any (fun t => t.id = task_id) then
      let t : Task := ⟨task_id, task.title, task.done, task.due_date, task.category, pr⟩
      .ok (⟨db.tasks.map (fun u => if u.id = task_id then t else u), db.nextId⟩, t)
    else
      .error ⟨404, "Task not found"⟩

/-! ## DELETE /tasks/{id} (`delete_task`) -/

/-- `delete_task`: 404 when the id is absent, else DELETE the row. The
AUTOINCREMENT counter is untouched (the table was created with
AUTOINCREMENT, so SQLite never re-issues a deleted id). -/
def delete_task (db : DB) (task_id : Nat) : Except HTTPError (DB × String) :=
  if db.tasks.any (fun t => t.id = task_id) then
    .ok (⟨db.tasks.filter (fun t => t.id ≠ task_id), db.nextId⟩,
      "Task " ++ toString task_id ++ " deleted successfully")
  else
    .error ⟨404, "Task not found"⟩

/-! ## GET /tasks (`get_tasks`)

The handler assembles `WHERE`/`ORDER BY`/`LIMIT OFFSET` clauses. SQL
three-valued logic matters only through NULL columns: `NULL < x`, `NULL = x`,
`NULL >= x` are all non-true, so rows with a NULL column fail every comparison
predicate on it. -/

/-- SQLite compares TEXT values bytewise (memcmp); on UTF-8 encoded strings
that is codepoint-lexicographic order, and on ISO `YYYY-MM-DD` strings it
agrees with calendar order. -/
def charsLt : List Char → List Char → Bool
  | [], [] => false
  | [], _ :: _ => true
  | _ :: _, [] => false
  | a :: as, b :: bs => if a < b then true else if b < a then false else charsLt as bs

/-- The SQL comparison `a < b` on two non-NULL TEXT values. -/
def sqlLt (a b : String) : Bool := charsLt a.toList b.toList

/-- The SQL comparison `a <= b` on two non-NULL TEXT values. -/
def sqlLe (a b : String) : Bool := !(charsLt b.toList a.toList)

/-- The `filter_by` clause of `get_tasks` as a row predicate. Unlisted values
fall through the `elif` chain and add no clause. -/
def statusFilter (filter_by : Option String) (todayS weekEndS : String) (t : Task) : Bool :=
  match filter_by with
  | none => true
  | some f =>
    if f = "overdue" then
      (match t.due_date with | some d => sqlLt d todayS | none => false) && !t.done
    else if f = "today" then
      t.due_date = some todayS
    else if f = "week" then
      (match t.due_date with | some d => sqlLe todayS d && sqlLe d weekEndS | none => false)
    else if f = "completed" then t.done
    else if f = "pending" then !t.done
    else if f = "high" ∨ f = "medium" ∨ f = "low" then t.priority = some f
    else true

/-- The `category`/`priority` equality clauses (added only for truthy
parameters; `column = v` is non-true on NULL columns). -/
def catPrioFilter (category priority : Option String) (t : Task) : Bool :=
  (if truthy category then t.category = category else true) &&
  (if truthy priority then t.priority = priority else true)

/-- `CASE priority WHEN 'high' THEN 1 WHEN 'medium' THEN 2 WHEN 'low' THEN 3
ELSE 4 END` (NULL falls into the ELSE arm). -/
def priorityRank : Option String → Nat
  | some p => if p = "high" then 1 else if p = "medium" then 2 else if p = "low" then 3 else 4
  | none => 4

/-- `expr IS NULL` as a sort key (false sorts before true under ASC). -/
def nullBit : Option String → Nat
  | none => 1
  | some _ => 0

/-- A NULLable TEXT column under plain `ASC`: SQLite orders NULL before any
string, then strings bytewise. -/
def cmpOptStr : Option String → Option String → Ordering
  | none, none => .eq
  | none, some _ => .lt
  | some _, none => .gt
  | some a, some b => compare a b

/-- The four recognised `ORDER BY` variants as boolean comparators; an
unlisted `sort_by` adds no ORDER BY, leaving rowid order. -/
def sortLe (sort_by : String) (a b : Task) : Bool :=
  if sort_by = "date" then
    ((compare (nullBit a.due_date) (nullBit b.due_date)).then
      ((cmpOptStr a.due_date b.due_date).then (compare b.id a.id))) ≠ .gt
  else if sort_by = "category" then
    ((compare (nullBit a.category) (nullBit b.category)).then
      ((cmpOptStr a.category b.category).then (cmpOptStr a.due_date b.due_date))) ≠ .gt
  else if sort_by = "priority" then
    ((compare (priorityRank a.priority) (priorityRank b.priority)).then
      (cmpOptStr a.due_date b.due_date)) ≠ .gt
  else
    true

/-- Apply the `ORDER BY` clause: the recognised values sort, anything else
leaves the rows in rowid order. -/
def sortTasks (sort_by : String) (ts : List Task) : List Task :=
  if sort_by = "date" ∨ sort_by = "category" ∨ sort_by = "priority" then
    ts.mergeSort (sortLe sort_by)
  else if sort_by = "created" then
    ts.mergeSort (fun a b => b.id ≤ a.id)
  else ts

/-- `LIMIT ? OFFSET ?`, appended only when `limit` is supplied (so `offset`
alone has no effect). -/
def paginate (ts : List Task) : Option Nat → Nat → List Task
  | none, _ => ts
  | some l, o => (ts.drop o).take l

/-- `get_tasks`: filter by `filter_by`/`category`/`priority`, order by
`sort_by` (default `"priority"`), then paginate. `today` is the request
instant; the `week` window ends at `today + timedelta(days=7)`. -/
def get_tasks (db : DB) (filter_by category priority : Option String)
    (sort_by : String) (limit : Option Nat) (offset : Nat) (today : Ymd) : List Task :=
  let todayS := fmtYmd today
  let weekEndS := fmtYmd (addDays today 7)
  paginate
    (sortTasks sort_by
      (db.tasks.filter (fun t =>
        statusFilter filter_by todayS weekEndS t && catPrioFilter category priority t)))
    limit offset

/-! ## GET /stats (`get_stats`) -/

/-- The response model `TaskStats`. `completion_rate` is
`round(completed / total * 100, 2)` when `total > 0` and `0` otherwise; we
carry it as an exact rational (the claims only exercise the zero branch). The
`GROUP BY` dictionaries become association lists keyed by the distinct
non-null values in first-appearance order. -/
structure TaskStats where
  total_tasks : Nat
  completed_tasks : Nat
  pending_tasks : Nat
  overdue_tasks : Nat
  high_priority_tasks : Nat
  completion_rate : ℚ
  categories : List (String × Nat)
  priorities : List (String × Nat)
deriving Repr, DecidableEq

/-- `SELECT col, COUNT(*) FROM tasks WHERE col IS NOT NULL GROUP BY col`. -/
def groupCounts (f : Task → Option String) (ts : List Task) : List (String × Nat) :=
  ((ts.filterMap f).dedup).map (fun k => (k, (ts.filter (fun t => f t = some k)).length))

/-- `due_date < today AND done = 0` (the overdue predicate shared by
`get_stats`, `get_dashboard` and the `overdue` filter). -/
def overduePred (todayS : String) (t : Task) : Bool :=
  (match t.due_date with | some d => sqlLt d todayS | none => false) && !t.done

/-- `get_stats`: the six counts and two groupings; total on every input. -/
def get_stats (db : DB) (today : Ymd) : TaskStats :=
  let ts := db.tasks
  let total := ts.length
  let completed := (ts.filter (fun t => t.done)).length
  { total_tasks := total
    completed_tasks := completed
    pending_tasks := (ts.filter (fun t => !t.done)).length
    overdue_tasks := (ts.filter (overduePred (fmtYmd today))).length
    high_priority_tasks := (ts.filter (fun t => t.priority = some "high" && !t.done)).length
    completion_rate := if total > 0 then (completed : ℚ) / (total : ℚ) * 100 else 0
    categories := groupCounts (fun t => t.category) ts
    priorities := groupCounts (fun t => t.priority) ts }

/-! ## GET /dashboard (`get_dashboard`), timeline part

Only the `timeline.upcoming_week` field is in scope for the claims. Its SQL is
`SELECT COUNT(*) FROM tasks WHERE due_date >= ? AND due_date <= ? AND done = 0`
with parameters `str(date.today())` and `str(date.today() + timedelta(days=7))`.
(The other dashboard fields read `created_at`, which no claim concerns.) -/
def dashboard_upcoming_week (db : DB) (today : Ymd) : Nat :=
  (db.tasks.filter (fun t =>
    (match t.due_date with
     | some d => sqlLe (fmtYmd today) d && sqlLe d (fmtYmd (addDays today 7))
     | none => false) && !t.done)).length

/-! ## GET /search (`search_tasks`) -/

/-- `n` occurs as a contiguous sublist of `h`. -/
def listPrefixAt : List Char → List Char → Bool
  | _, [] => true
  | [], _ :: _ => false
  | c :: cs, d :: ds => c = d && listPrefixAt cs ds

def listContainsSub : List Char → List Char → Bool
  | [], n => n.isEmpty
  | h@(_ :: t), n => listPrefixAt h n || listContainsSub t n

/-- `column LIKE '%q%'` on a NULLable TEXT column: non-true on NULL, and
case-insensitive substring containment otherwise (SQLite LIKE is
ASCII-case-insensitive; `%`/`_` wildcards inside `q` itself are not modelled —
no claim depends on the match predicate's fine structure). -/
def likeContains (q : String) : Option String → Bool
  | none => false
  | some s => listContainsSub s.toLower.toList q.toLower.toList

/-- `ORDER BY done ASC, priority = 'high' DESC`: undone rows first, then rows
with priority `'high'` (the comparison is NULL on a NULL priority, and DESC
places NULL last: true, false, NULL). -/
def searchRank (t : Task) : Nat × Nat :=
  ((if t.done then 1 else 0),
   match t.priority with
   | some p => if p = "high" then 0 else 1
   | none => 2)

/-- The `/search` response body. -/
structure SearchResponse where
  query : String
  results_count : Nat
  results : List Task
deriving Repr, DecidableEq

/-- `search_tasks`: the WHERE clause is the OR of the selected conditions.
When both flags are false the handler interpolates an empty join, producing
`WHERE () ORDER BY ...` — a SQLite syntax error that escapes as an unhandled
`sqlite3.OperationalError` (HTTP 500), modelled as the error branch. -/
def search_tasks (db : DB) (q : String) (in_title in_category : Bool)
    (limit : Option Nat) (offset : Nat) : Except String SearchResponse :=
  if !in_title && !in_category then
    .error "sqlite3.OperationalError: near ): syntax error"
  else
    let rows := db.tasks.filter (fun t =>
      (in_title && likeContains q (some t.title)) ||
      (in_category && likeContains q t.category))
    let ordered := rows.mergeSort (fun a b => decide (searchRank a ≤ searchRank b))
    let results := paginate ordered limit offset
    .ok ⟨q, results.length, results⟩

/-! ## Sequences of mutating operations

Only `create_task`, `update_task` and `delete_task` write the `tasks` table.
A failed request leaves the database untouched (each handler raises before its
single INSERT/UPDATE/DELETE statement executes). -/

inductive Op where
  | create (body : TaskCreate)
  | update (task_id : Nat) (body : TaskCreate)
  | delete (task_id : Nat)
deriving Repr, DecidableEq

/-- The database after one request (errors leave it unchanged). -/
def applyOp (db : DB) : Op → DB
  | .create body =>
    match create_task db body with
    | .ok (db', _) => db'
    | .error _ => db
  | .update task_id body =>
    match update_task db task_id body with
    | .ok (db', _) => db'
    | .error _ => db
  | .delete task_id =>
    match delete_task db task_id with
    | .ok (db', _) => db'
    | .error _ => db

/-- The database reached from a fresh file by a request sequence. -/
def run (ops : List Op) : DB := ops.foldl applyOp DB.init

/-- The ids handed out by the store along a request sequence, in order of
assignment (one per successful create). -/
def assignedIds : DB → List Op → List Nat
  | _, [] => []
  | db, op :: ops =>
    (match op with
     | .create body =>
       match create_task db body with
       | .ok (_, t) => [t.id]
       | .error _ => []
     | _ => []) ++ assignedIds (applyOp db op) ops

/-! ## Helper lemmas -/

/-- Sorting (any `sort_by`) permutes the rows, so membership is unchanged. -/
theorem mem_sortTasks {t : Task} {sb : String} {ts : List Task} :
    t ∈ sortTasks sb ts ↔ t ∈ ts := by
  unfold sortTasks
  split
  · exact List.mem_mergeSort
  · split
    · exact List.mem_mergeSort
    · exact Iff.rfl

theorem mem_of_mem_paginate {t : Task} {ts : List Task} {lim : Option Nat} {off : Nat}
    (h : t ∈ paginate ts lim off) : t ∈ ts := by
  cases lim with
  | none => exact h
  | some l => exact List.mem_of_mem_drop (List.mem_of_mem_take h)

theorem overduePred_iff {todayS : String} {t : Task} :
    overduePred todayS t = true ↔
      (∃ d, t.due_date = some d ∧ sqlLt d todayS = true) ∧ t.done = false := by
  unfold overduePred
  cases h : t.due_date with
  | none => simp [h]
  | some d => simp [h]

/-! ## Claims -/

/-- The predicate Claim C3 states for the `overdue` filter: `due_date < today
AND done = false` (a task with no `due_date` has no date below `today`). Dates
are compared as their ISO strings, exactly as the TEXT column is compared. -/
def overdueSpec (today : Ymd) (t : Task) : Prop :=
  (∃ d, t.due_date = some d ∧ sqlLt d (fmtYmd today) = true) ∧ t.done = false

/-- Claim C3: for every task collection and request instant, GET
/tasks?filter_by=overdue (all other parameters at their defaults) returns
exactly the tasks with `due_date < today` and `done = false`; in particular no
returned task is done or due at/after today. -/
theorem claim_c3_overdue_exact (db : DB) (today : Ymd) (t : Task) :
    t ∈ get_tasks db (some "overdue") none none "priority" none 0 today ↔
      t ∈ db.tasks ∧ overdueSpec today t := by
  have hpred : ∀ u : Task,
      (statusFilter (some "overdue") (fmtYmd today) (fmtYmd (addDays today 7)) u &&
        catPrioFilter none none u) = overduePred (fmtYmd today) u := by
    intro u
    simp [statusFilter, catPrioFilter, truthy, overduePred]
  simp only [get_tasks, paginate, mem_sortTasks, List.mem_filter, hpred]
  rw [overduePred_iff]
  exact Iff.rfl

/-- Claim C8: GET /stats over the empty collection: every count is zero, the
completion rate is zero (the division is guarded by `total > 0`), and both
groupings are empty; the aggregation is a total function, so it never
faults. -/
theorem claim_c8_stats_empty (n : Nat) (today : Ymd) :
    get_stats ⟨[], n⟩ today = ⟨0, 0, 0, 0, 0, 0, [], []⟩ := by
  rfl

/-- Claim C10: a task with no `due_date` is never returned by the `overdue`,
`today` or `week` filters (NULL fails all three date comparisons), whatever
the remaining query parameters are. -/
theorem claim_c10_null_due_date_filtered (db : DB) (today : Ymd) (f : String)
    (cat prio : Option String) (sb : String) (lim : Option Nat) (off : Nat) (t : Task)
    (hf : f = "overdue" ∨ f = "today" ∨ f = "week")
    (ht : t ∈ get_tasks db (some f) cat prio sb lim off today) :
    t.due_date ≠ none := by
  intro hnone
  have h1 : t ∈ sortTasks sb (db.tasks.filter (fun u =>
      statusFilter (some f) (fmtYmd today) (fmtYmd (addDays today 7)) u &&
      catPrioFilter cat prio u)) :=
    mem_of_mem_paginate ht
  rw [mem_sortTasks, List.mem_filter, Bool.and_eq_true] at h1
  have h3 := h1.2.1
  rcases hf with rfl | rfl | rfl <;> simp [statusFilter, hnone] at h3

/-- Witness for C10 at a concrete store, filter and request date. -/
theorem claim_c10_null_due_date_filtered_witness :
    (⟨1, "a", false, some "2024-01-02", none, some "medium"⟩ : Task).due_date ≠ none :=
  claim_c10_null_due_date_filtered ⟨[⟨1, "a", false, some "2024-01-02", none, some "medium"⟩], 2⟩
    ⟨2024, 1, 1⟩ "week" none none "storage" none 0
    ⟨1, "a", false, some "2024-01-02", none, some "medium"⟩
    (Or.inr (Or.inr rfl)) (by decide)

/-- The `filter_by` values the `elif` chain of `get_tasks` recognises. -/
def recognizedFilters : List String :=
  ["overdue", "today", "week", "completed", "pending", "high", "medium", "low"]

/-- The `sort_by` values the `elif` chain of `get_tasks` recognises. -/
def recognizedSorts : List String := ["date", "category", "priority", "created"]

theorem statusFilter_unrecognized {f : String} (hf : f ∉ recognizedFilters)
    (a b : String) (t : Task) : statusFilter (some f) a b t = true := by
  simp only [recognizedFilters, List.mem_cons, List.not_mem_nil, or_false, not_or] at hf
  obtain ⟨h1, h2, h3, h4, h5, h6, h7, h8⟩ := hf
  simp [statusFilter, h1, h2, h3, h4, h5, h6, h7, h8]

theorem sortTasks_unrecognized {s : String} (hs : s ∉ recognizedSorts)
    (ts : List Task) : sortTasks s ts = ts := by
  simp only [recognizedSorts, List.mem_cons, List.not_mem_nil, or_false, not_or] at hs
  obtain ⟨h1, h2, h3, h4⟩ := hs
  simp [sortTasks, h1, h2, h3, h4]

/-- Claim C5: unrecognised `filter_by` and `sort_by` values are silently
ignored (the handler is total, so the response is 200). An unrecognised
`filter_by` yields the same rows as no `filter_by` at all, and an
unrecognised `sort_by` adds no ORDER BY clause: the response is the filtered
table in storage order, paginated. -/
theorem claim_c5_unrecognized_ignored :
    (∀ (db : DB) (f : String) (cat prio : Option String) (sb : String)
        (lim : Option Nat) (off : Nat) (today : Ymd), f ∉ recognizedFilters →
        get_tasks db (some f) cat prio sb lim off today =
          get_tasks db none cat prio sb lim off today) ∧
    (∀ (db : DB) (fb cat prio : Option String) (s : String)
        (lim : Option Nat) (off : Nat) (today : Ymd), s ∉ recognizedSorts →
        get_tasks db fb cat prio s lim off today =
          paginate (db.tasks.filter (fun t =>
            statusFilter fb (fmtYmd today) (fmtYmd (addDays today 7)) t &&
            catPrioFilter cat prio t)) lim off) := by
  constructor
  · intro db f cat prio sb lim off today hf
    simp only [get_tasks]
    congr 1
    congr 1
    apply List.filter_congr
    intro t _
    rw [statusFilter_unrecognized hf]
    rfl
  · intro db fb cat prio s lim off today hs
    simp only [get_tasks]
    rw [sortTasks_unrecognized hs]

/-- Witness for C5 at a concrete store and concrete unrecognised values. -/
theorem claim_c5_unrecognized_ignored_witness :
    get_tasks ⟨[⟨1, "a", false, none, none, some "medium"⟩], 2⟩ (some "bogus") none none
        "storage" none 0 ⟨2024, 1, 1⟩ =
      get_tasks ⟨[⟨1, "a", false, none, none, some "medium"⟩], 2⟩ none none none
        "storage" none 0 ⟨2024, 1, 1⟩ ∧
    get_tasks ⟨[⟨1, "a", false, none, none, some "medium"⟩], 2⟩ none none none
        "storage" none 0 ⟨2024, 1, 1⟩ =
      paginate ((⟨[⟨1, "a", false, none, none, some "medium"⟩], 2⟩ : DB).tasks.filter
        (fun t => statusFilter none (fmtYmd ⟨2024, 1, 1⟩)
            (fmtYmd (addDays ⟨2024, 1, 1⟩ 7)) t &&
          catPrioFilter none none t)) none 0 :=
  ⟨claim_c5_unrecognized_ignored.1 ⟨[⟨1, "a", false, none, none, some "medium"⟩], 2⟩
      "bogus" none none "storage" none 0 ⟨2024, 1, 1⟩ (by decide),
   claim_c5_unrecognized_ignored.2 ⟨[⟨1, "a", false, none, none, some "medium"⟩], 2⟩
      none none none "storage" none 0 ⟨2024, 1, 1⟩ (by decide)⟩

/-- No request lowers the AUTOINCREMENT counter: creates bump it, updates and
deletes leave it alone, failed requests change nothing. -/
theorem applyOp_nextId (db : DB) (op : Op) : db.nextId ≤ (applyOp db op).nextId := by
  cases op with
  | create body =>
    by_cases h1 : dueDateRejected body.due_date
    · simp [applyOp, create_task, h1]
    · by_cases h2 : priorityRejected body.priority
      · simp [applyOp, create_task, h1, h2]
      · simp [applyOp, create_task, h1, h2, Nat.le_succ]
  | update i body =>
    by_cases h1 : dueDateRejected body.due_date
    · simp [applyOp, update_task, h1]
    · by_cases h2 : priorityRejected body.priority
      · simp [applyOp, update_task, h1, h2]
      · by_cases h3 : db.tasks.any (fun t => t.id = i)
        · simp [applyOp, update_task, h1, h2, h3]
        · simp [applyOp, update_task, h1, h2, h3]
  | delete i =>
    by_cases h3 : db.tasks.any (fun t => t.id = i)
    · simp [applyOp, delete_task, h3]
    · simp [applyOp, delete_task, h3]

/-- Every id assigned along a request sequence is at least the counter the
sequence started from. -/
theorem assignedIds_lb (ops : List Op) : ∀ (db : DB), ∀ i ∈ assignedIds db ops,
    db.nextId ≤ i := by
  induction ops with
  | nil => intro db i hi; simp [assignedIds] at hi
  | cons op ops ih =>
    intro db i hi
    simp only [assignedIds, List.mem_append] at hi
    rcases hi with h | h
    · cases op with
      | create body =>
        revert h
        by_cases h1 : dueDateRejected body.due_date
        · simp [create_task, h1]
        · by_cases h2 : priorityRejected body.priority
          · simp [create_task, h1, h2]
          · simp only [create_task, h1, h2, if_false, if_neg, List.mem_singleton]
            rintro rfl
            exact le_refl _
      | update j body => simp at h
      | delete j => simp at h
    · exact le_trans (applyOp_nextId db op) (ih (applyOp db op) i h)

/-- The ids handed out along any request sequence are strictly increasing. -/
theorem assignedIds_sorted (ops : List Op) : ∀ db : DB,
    (assignedIds db ops).Pairwise (· < ·) := by
  induction ops with
  | nil => intro db; simp [assignedIds]
  | cons op ops ih =>
    intro db
    simp only [assignedIds]
    cases op with
    | create body =>
      by_cases h1 : dueDateRejected body.due_date
      · simpa [create_task, h1] using ih (applyOp db (.create body))
      · by_cases h2 : priorityRejected body.priority
        · simpa [create_task, h1, h2] using ih (applyOp db (.create body))
        · have hok : create_task db body =
              .ok (⟨db.tasks ++ [⟨db.nextId, body.title, body.done, body.due_date,
                body.category, if truthy body.priority then body.priority else some "medium"⟩],
                db.nextId + 1⟩,
              ⟨db.nextId, body.title, body.done, body.due_date, body.category,
                if truthy body.priority then body.priority else some "medium"⟩) := by
            simp [create_task, h1, h2]
          dsimp only
          rw [hok]
          simp only [List.singleton_append, List.pairwise_cons]
          constructor
          · intro j hj
            have hle := assignedIds_lb ops (applyOp db (.create body)) j hj
            have : (applyOp db (.create body)).nextId = db.nextId + 1 := by
              simp [applyOp, hok]
            omega
          · exact ih (applyOp db (.create body))
    | update j body =>
      simpa using ih (applyOp db (.update j body))
    | delete j =>
      simpa using ih (applyOp db (.delete j))

/-- Claim C9: across every sequence of requests from a fresh store, ids are
assigned in strictly increasing order; hence each id is assigned exactly once
and, since deletion never lowers the counter, an id is never reused after the
task holding it is deleted. -/
theorem claim_c9_ids_increasing_never_reused (ops : List Op) :
    (assignedIds DB.init ops).Pairwise (· < ·) ∧ (assignedIds DB.init ops).Nodup :=
  ⟨assignedIds_sorted ops DB.init,
   (assignedIds_sorted ops DB.init).imp Nat.ne_of_lt⟩

/-- What the boundary check actually guarantees for a stored `due_date`: NULL,
the empty string (falsy, so the check is skipped), or a string `strptime
"%Y-%m-%d"` accepts. -/
def dueOk (d : Option String) : Prop :=
  d = none ∨ d = some "" ∨ validYmd (d.getD "") = true

theorem dueOk_of_not_rejected {d : Option String} (h : ¬ dueDateRejected d) : dueOk d := by
  unfold dueDateRejected truthy at h
  cases d with
  | none => exact Or.inl rfl
  | some s =>
    by_cases hs : s = ""
    · exact Or.inr (Or.inl (by rw [hs]))
    · refine Or.inr (Or.inr ?_)
      simp [hs] at h
      simpa using h

/-- The C4 store invariant over the embedded state. -/
def dbDatesOk (db : DB) : Prop := ∀ t ∈ db.tasks, dueOk t.due_date

theorem dbDatesOk_applyOp {db : DB} (h : dbDatesOk db) (op : Op) :
    dbDatesOk (applyOp db op) := by
  cases op with
  | create body =>
    by_cases h1 : dueDateRejected body.due_date
    · simpa [applyOp, create_task, h1] using h
    · by_cases h2 : priorityRejected body.priority
      · simpa [applyOp, create_task, h1, h2] using h
      · intro t ht
        simp only [applyOp, create_task, h1, h2, if_neg, if_false, List.mem_append,
          List.mem_singleton] at ht
        rcases ht with ht | rfl
        · exact h t ht
        · exact dueOk_of_not_rejected h1
  | update i body =>
    by_cases h1 : dueDateRejected body.due_date
    · simpa [applyOp, update_task, h1] using h
    · by_cases h2 : priorityRejected body.priority
      · simpa [applyOp, update_task, h1, h2] using h
      · by_cases h3 : db.tasks.any (fun t => t.id = i)
        · intro t ht
          simp only [applyOp, update_task, h1, h2, h3, if_neg, if_false, if_true,
            List.mem_map] at ht
          obtain ⟨u, hu, ht⟩ := ht
          by_cases hui : u.id = i
          · rw [if_pos hui] at ht
            rw [← ht]
            exact dueOk_of_not_rejected h1
          · rw [if_neg hui] at ht
            rw [← ht]
            exact h u hu
        · simpa [applyOp, update_task, h1, h2, h3] using h
  | delete i =>
    by_cases h3 : db.tasks.any (fun t => t.id = i)
    · intro t ht
      simp only [applyOp, delete_task, h3, if_true, List.mem_filter] at ht
      exact h t ht.1
    · simpa [applyOp, delete_task, h3] using h

theorem dbDatesOk_foldl (ops : List Op) : ∀ db : DB, dbDatesOk db →
    dbDatesOk (ops.foldl applyOp db) := by
  induction ops with
  | nil => intro db h; exact h
  | cons op ops ih => intro db h; exact ih (applyOp db op) (dbDatesOk_applyOp h op)

/-- Claim C4, amended: in every state reachable from a fresh store, each
stored `due_date` is NULL, the empty string, or a date `strptime "%Y-%m-%d"`
accepts (4-digit year, month/day possibly unpadded, real calendar day);
creates and updates are the only writers, and they reject (400) exactly the
truthy `due_date` strings `strptime` rejects. -/
theorem claim_c4_amended_due_date_invariant (ops : List Op) :
    ∀ t ∈ (run ops).tasks,
      t.due_date = none ∨ t.due_date = some "" ∨
        validYmd (t.due_date.getD "") = true := by
  have : dbDatesOk (run ops) :=
    dbDatesOk_foldl ops DB.init (by intro t ht; simp [DB.init] at ht)
  exact this

/-- Witness for the amended C4 at a concrete reachable state holding an
unpadded date. -/
theorem claim_c4_amended_due_date_invariant_witness :
    (⟨1, "a", false, some "2024-1-5", none, some "medium"⟩ : Task).due_date = none ∨
    (⟨1, "a", false, some "2024-1-5", none, some "medium"⟩ : Task).due_date = some "" ∨
    validYmd ((⟨1, "a", false, some "2024-1-5", none, some "medium"⟩ : Task).due_date.getD "")
      = true :=
  claim_c4_amended_due_date_invariant [.create ⟨"a", false, some "2024-1-5", none, none⟩]
    ⟨1, "a", false, some "2024-1-5", none, some "medium"⟩ (by decide)

/-- Counterexample to C4 as stated: POST accepts `"2024-1-5"` (strptime allows
unpadded month and day) and `""` (falsy, so validation is skipped), storing
both, though neither is a zero-padded `YYYY-MM-DD` calendar date. -/
theorem claim_c4_counterexample :
    create_task DB.init ⟨"a", false, some "2024-1-5", none, none⟩ =
      .ok (⟨[⟨1, "a", false, some "2024-1-5", none, some "medium"⟩], 2⟩,
        ⟨1, "a", false, some "2024-1-5", none, some "medium"⟩) ∧
    isYYYYMMDD_spec "2024-1-5" = false ∧
    create_task DB.init ⟨"a", false, some "", none, none⟩ =
      .ok (⟨[⟨1, "a", false, some "", none, some "medium"⟩], 2⟩,
        ⟨1, "a", false, some "", none, some "medium"⟩) ∧
    isYYYYMMDD_spec "" = false :=
  ⟨rfl, by decide, rfl, by decide⟩

/-- Replacing the row whose id matched moves `find?` to the replacement. -/
theorem find?_map_replace (tid : Nat) (t' : Task) (hid : t'.id = tid) :
    ∀ (ts : List Task) (t : Task), ts.find? (fun u => u.id = tid) = some t →
      (ts.map (fun u => if u.id = tid then t' else u)).find? (fun u => u.id = tid) =
        some t' := by
  intro ts
  induction ts with
  | nil => intro t h; simp at h
  | cons a ts ih =>
    intro t h
    by_cases ha : a.id = tid
    · simp [List.find?, ha, hid]
    · rw [List.find?_cons_of_neg _ (by simpa using ha)] at h
      rw [List.map_cons, if_neg ha, List.find?_cons_of_neg _ (by simpa using ha)]
      exact ih t h

/-- Counterexample to C1 as stated: (i) a body that omits `priority` but
carries an unparsable `due_date` does not update at all (400), and (ii) when
the prior stored priority is the empty string — reachable, see the C2
counterexample — the fallback also rewrites it to `"medium"`, not only when
the prior value was NULL. -/
theorem claim_c1_counterexample :
    update_task ⟨[⟨1, "a", false, none, none, some "high"⟩], 2⟩ 1
        ⟨"b", false, some "not-a-date", none, none⟩ =
      .error ⟨400, "Invalid date format. Use YYYY-MM-DD"⟩ ∧
    update_task ⟨[⟨1, "a", false, none, none, some ""⟩], 2⟩ 1 ⟨"b", false, none, none, none⟩ =
      .ok (⟨[⟨1, "b", false, none, none, some "medium"⟩], 2⟩,
        ⟨1, "b", false, none, none, some "medium"⟩) :=
  ⟨rfl, rfl⟩

/-- Claim C1, amended: for every stored task and every parsed PUT body that
omits `priority` and whose `due_date` passes the boundary check (absent,
empty, or strptime-valid), the update succeeds; the new stored row carries
the body's `title`, `done`, `due_date`, `category` (omitted optional body
fields having their Pydantic defaults), and the prior stored priority — with
`"medium"` substituted when the prior priority was NULL or empty. -/
theorem claim_c1_amended_priority_preserved (db : DB) (tid : Nat) (body : TaskCreate)
    (t : Task) (ht : db.tasks.find? (fun u => u.id = tid) = some t)
    (hp : body.priority = none) (hd : ¬ dueDateRejected body.due_date) :
    ∃ db' : DB,
      update_task db tid body =
        .ok (db', ⟨tid, body.title, body.done, body.due_date, body.category,
          some (priorityFallback t.priority)⟩) ∧
      db'.tasks.find? (fun u => u.id = tid) =
        some ⟨tid, body.title, body.done, body.due_date, body.category,
          some (priorityFallback t.priority)⟩ ∧
      db'.nextId = db.nextId := by
  have hpr0 : ¬ priorityRejected (none : Option String) := by
    intro hcon
    simp [priorityRejected, truthy] at hcon
  have hpt : t.id = tid := by
    have h2 := List.find?_some ht
    simpa using h2
  have hany : db.tasks.any (fun u => u.id = tid) = true := by
    rw [List.any_eq_true]
    exact ⟨t, List.mem_of_find?_eq_some ht, by simpa using hpt⟩
  have hstep : update_task db tid body =
      .ok (⟨db.tasks.map (fun u => if u.id = tid then
          ⟨tid, body.title, body.done, body.due_date, body.category,
            some (priorityFallback t.priority)⟩ else u), db.nextId⟩,
        ⟨tid, body.title, body.done, body.due_date, body.category,
          some (priorityFallback t.priority)⟩) := by
    unfold update_task
    rw [if_neg hd, hp, if_neg hpr0, ht, hany]
    simp
  exact ⟨_, hstep, find?_map_replace tid
      ⟨tid, body.title, body.done, body.due_date, body.category,
        some (priorityFallback t.priority)⟩ rfl db.tasks t ht, rfl⟩

/-- Witness for the amended C1 at a concrete store and body. -/
theorem claim_c1_amended_priority_preserved_witness :
    ∃ db' : DB,
      update_task ⟨[⟨1, "a", true, some "2024-01-05", some "w", some "high"⟩], 2⟩ 1
          ⟨"b", false, none, none, none⟩ =
        .ok (db', ⟨1, "b", false, none, none, some (priorityFallback (some "high"))⟩) ∧
      db'.tasks.find? (fun u => u.id = 1) =
        some ⟨1, "b", false, none, none, some (priorityFallback (some "high"))⟩ ∧
      db'.nextId = 2 :=
  claim_c1_amended_priority_preserved ⟨[⟨1, "a", true, some "2024-01-05", some "w", some "high"⟩], 2⟩
    1 ⟨"b", false, none, none, none⟩ ⟨1, "a", true, some "2024-01-05", some "w", some "high"⟩
    (by decide) rfl (by decide)

/-- Counterexample to C2 as stated: the guard `if task.priority and ...` skips
a falsy priority, so a PUT carrying `priority: ""` — a value outside
`{high, medium, low}` — is not rejected: it succeeds and rewrites the stored
record (here priority `"high"` becomes `""`). -/
theorem claim_c2_counterexample :
    ("" ∉ validPriorities) ∧
    update_task ⟨[⟨1, "a", false, none, none, some "high"⟩], 2⟩ 1
        ⟨"a", false, none, none, some ""⟩ =
      .ok (⟨[⟨1, "a", false, none, none, some ""⟩], 2⟩,
        ⟨1, "a", false, none, none, some ""⟩) ∧
    (⟨[⟨1, "a", false, none, none, some ""⟩], 2⟩ : DB) ≠
      ⟨[⟨1, "a", false, none, none, some "high"⟩], 2⟩ :=
  ⟨by decide, rfl, by decide⟩

/-- Claim C2, amended: for every stored task and every PUT on its id whose
parsed body carries a nonempty priority outside `{high, medium, low}`, the
request fails with status 400 (the empty string, being falsy, instead slips
through the guard) and the store is untouched: the handler raises before its
UPDATE statement, so the mutation either fully applies or has no effect. -/
theorem claim_c2_amended_invalid_priority_rejected (db : DB) (tid : Nat)
    (body : TaskCreate) (t : Task) (p : String)
    (_ht : t ∈ db.tasks) (_htid : t.id = tid)
    (hp : body.priority = some p) (hne : p ≠ "") (hinv : p ∉ validPriorities) :
    applyOp db (.update tid body) = db ∧
      ∃ msg, update_task db tid body = .error ⟨400, msg⟩ := by
  have hprj : priorityRejected body.priority := by
    rw [hp]
    exact ⟨by simpa [truthy] using hne, by simpa using hinv⟩
  by_cases hd : dueDateRejected body.due_date
  · constructor
    · simp [applyOp, update_task, hd]
    · exact ⟨"Invalid date format. Use YYYY-MM-DD", by simp [update_task, hd]⟩
  · constructor
    · simp [applyOp, update_task, hd, hprj]
    · exact ⟨"Invalid priority. Use: high, medium, low", by simp [update_task, hd, hprj]⟩

/-- Witness for the amended C2 at a concrete store and body. -/
theorem claim_c2_amended_invalid_priority_rejected_witness :
    applyOp ⟨[⟨1, "a", false, none, none, some "high"⟩], 2⟩
        (.update 1 ⟨"b", true, none, none, some "urgent"⟩) =
      ⟨[⟨1, "a", false, none, none, some "high"⟩], 2⟩ ∧
    ∃ msg, update_task ⟨[⟨1, "a", false, none, none, some "high"⟩], 2⟩ 1
        ⟨"b", true, none, none, some "urgent"⟩ = .error ⟨400, msg⟩ :=
  claim_c2_amended_invalid_priority_rejected ⟨[⟨1, "a", false, none, none, some "high"⟩], 2⟩
    1 ⟨"b", true, none, none, some "urgent"⟩ ⟨1, "a", false, none, none, some "high"⟩
    "urgent" (by decide) rfl rfl (by decide) (by decide)

/-- Counterexample to C6 as stated: with `in_title=false&in_category=false`
the handler interpolates an empty condition list, so the SQL reads
`WHERE () ORDER BY ...` — a SQLite syntax error escaping as an unhandled
exception (HTTP 500), not a 200 response. -/
theorem claim_c6_counterexample :
    search_tasks ⟨[⟨1, "a", false, none, none, some "medium"⟩], 2⟩ "a" false false none 0 =
      .error "sqlite3.OperationalError: near ): syntax error" :=
  rfl

/-- Claim C6, amended: GET /search succeeds with a `{query, results_count,
results}` body, with `results_count` the length of `results`, for every query
and pagination — provided at least one of `in_title`/`in_category` is set
(both default to true); with both flags false the generated SQL is malformed
and the request faults. -/
theorem claim_c6_amended_search_succeeds (db : DB) (q : String)
    (in_title in_category : Bool) (lim : Option Nat) (off : Nat)
    (h : in_title = true ∨ in_category = true) :
    ∃ results : List Task,
      search_tasks db q in_title in_category lim off = .ok ⟨q, results.length, results⟩ := by
  have hcond : (!in_title && !in_category) = false := by
    rcases h with h | h
    · rw [h]; rfl
    · rw [h]; cases in_title <;> rfl
  unfold search_tasks
  rw [hcond]
  simp only [Bool.false_eq_true, if_false]
  exact ⟨_, rfl⟩

/-- Witness for the amended C6 at a concrete store and query. -/
theorem claim_c6_amended_search_succeeds_witness :
    ∃ results : List Task,
      search_tasks ⟨[⟨1, "a", false, none, none, some "medium"⟩], 2⟩ "a" true true none 0 =
        .ok ⟨"a", results.length, results⟩ :=
  claim_c6_amended_search_succeeds ⟨[⟨1, "a", false, none, none, some "medium"⟩], 2⟩
    "a" true true none 0 (Or.inl rfl)

/-- The count Claim C7 asserts for `timeline.upcoming_week`: every task due
within the next seven days, regardless of its `done` status. -/
def upcomingWeekSpecCount (db : DB) (today : Ymd) : Nat :=
  (db.tasks.filter (fun t =>
    match t.due_date with
    | some d => sqlLe (fmtYmd today) d && sqlLe d (fmtYmd (addDays today 7))
    | none => false)).length

/-- Counterexample to C7 as stated: the SQL behind `upcoming_week` carries
`AND done = 0`, so a completed task due tomorrow is not counted, though the
claim's count (done status ignored) includes it. -/
theorem claim_c7_counterexample :
    dashboard_upcoming_week ⟨[⟨1, "a", true, some "2024-01-02", none, some "medium"⟩], 2⟩
        ⟨2024, 1, 1⟩ = 0 ∧
    upcomingWeekSpecCount ⟨[⟨1, "a", true, some "2024-01-02", none, some "medium"⟩], 2⟩
        ⟨2024, 1, 1⟩ = 1 := by
  constructor <;> rfl

/-- Claim C7, amended: `timeline.upcoming_week` counts the tasks that are due
within the next seven days (`today <= due_date <= today + 7 days`) AND still
pending (`done = false`); tasks without a due date are not counted. -/
theorem claim_c7_amended_upcoming_week_pending_only (db : DB) (today : Ymd) :
    dashboard_upcoming_week db today =
      ((db.tasks.filter (fun t => !t.done)).filter (fun t =>
        match t.due_date with
        | some d => sqlLe (fmtYmd today) d && sqlLe d (fmtYmd (addDays today 7))
        | none => false)).length := by
  unfold dashboard_upcoming_week
  rw [List.filter_filter]

end TodoApi
